import Mathlib

/-!
Shallow embedding of the survey cross-tab and key-driver pipeline of
`src/app.py` (a pandas/statsmodels Streamlit app).

Modelling conventions:
* a spreadsheet cell is `Cell`: missing (pandas NaN / Python None), a string,
  or an integer; Python `str` is modelled by `pyStr`;
* machine floats are modelled by rationals; `round(·, d)` is modelled by
  half-up decimal rounding (`roundTo`), which agrees with numpy's half-even
  rounding away from exact ties;
* division by a zero base is modelled by the rational convention `x / 0 = 0`,
  matching the `.fillna(0)` the code applies to undefined percentage cells;
* the pandas `sort_values` calls in the code act on data that is already in
  the target order, so they are modelled as the identity on that order.
-/

/-- A raw spreadsheet cell: missing (pandas `NaN`/`None`), a string, or an
integer. -/
inductive Cell where
  | null
  | str (s : String)
  | int (n : Int)
  deriving DecidableEq, Repr

/-- Python `str(x)` applied to a cell; a missing value renders as `"nan"`
(the rendering of `float("nan")`, which is what pandas stores for missing). -/
def pyStr : Cell → String
  | Cell.null => "nan"
  | Cell.str s => s
  | Cell.int n => toString n

/-- The null-like placeholder strings filtered out of answers
(`ghost_blanks` in `app.py`, line 63). -/
def ghost_blanks : List String := ["nan", "None", "", "-", "NaN", "<NA>"]

/-- The caller-supplied configuration: id column, demographic (banner)
columns, question columns, and the multi-select flag. -/
structure Config where
  idCol : String
  demoCols : List String
  questionCols : List String
  splitMulticode : Bool
  deriving DecidableEq, Repr

/-- The raw respondent table: a header naming the columns and one list of
cells per respondent row. -/
structure Table where
  header : List String
  rows : List (List Cell)
  deriving DecidableEq, Repr

/-- Reading column `col` of a row (pandas column access; columns are assumed
to be present — an absent column reads as missing). -/
def getCell (header : List String) (row : List Cell) (col : String) : Cell :=
  match header.findIdx? (fun h => h = col) with
  | some i => row.getD i Cell.null
  | none => Cell.null

/-- A melt candidate: one (respondent row, question column) pair before any
scrubbing (`pd.melt`, line 57).  `demos` is aligned with `Config.demoCols`. -/
structure Cand where
  id : Cell
  demos : List Cell
  question : String
  rawAnswer : Cell
  deriving DecidableEq, Repr

/-- A Long Record: one scrubbed (respondent, question, answer-token) row. -/
structure LongRec where
  id : Cell
  demos : List Cell
  question : String
  answer : String
  deriving DecidableEq, Repr

/-- `pd.melt` (line 57): one candidate per (question column, respondent row),
stacked question-major as pandas does. -/
def melt (cfg : Config) (t : Table) : List Cand :=
  cfg.questionCols.flatMap fun q =>
    t.rows.map fun r =>
      { id := getCell t.header r cfg.idCol
        demos := cfg.demoCols.map (getCell t.header r)
        question := q
        rawAnswer := getCell t.header r q }

/-- Python `str.strip()`: drop leading and trailing whitespace (ASCII
whitespace; Python also strips a few rarer Unicode spaces). -/
def pyTrim (s : String) : String :=
  String.mk (((s.data.dropWhile Char.isWhitespace).reverse.dropWhile
    Char.isWhitespace).reverse)

/-- Helper for `pySplitComma`: the accumulator holds the current piece
reversed. -/
def splitCommaAux : List Char → List Char → List String
  | [], acc => [String.mk acc.reverse]
  | c :: cs, acc =>
    if c = ',' then String.mk acc.reverse :: splitCommaAux cs []
    else splitCommaAux cs (c :: acc)

/-- Python `str.split(',')`: split on every comma, keeping empty pieces
(`"".split(',') == [""]`). -/
def pySplitComma (s : String) : List String := splitCommaAux s.data []

/-- `astype(str).str.strip()` applied to the answer (line 61). -/
def stripAnswer (c : Cand) : LongRec :=
  { id := c.id, demos := c.demos, question := c.question,
    answer := pyTrim (pyStr c.rawAnswer) }

/-- The scrubbing stages applied to the melted candidates (lines 59-70):
drop null answers (`dropna`), stringify and trim, drop ghost blanks, then
optionally split multi-select cells on commas, trim each token and drop
ghost-blank tokens. -/
def pipeline (split : Bool) (l : List Cand) : List LongRec :=
  let s1 := l.filter (fun c => decide (c.rawAnswer ≠ Cell.null))
  let s2 := s1.map stripAnswer
  let s3 := s2.filter (fun r => decide (r.answer ∉ ghost_blanks))
  if split then
    let s4 := s3.flatMap (fun r =>
      ((pySplitComma r.answer).map pyTrim).map (fun a => { r with answer := a }))
    s4.filter (fun r => decide (r.answer ∉ ghost_blanks))
  else s3

/-- The scrubbed long data (lines 57-70). -/
def long_data (cfg : Config) (t : Table) : List LongRec :=
  pipeline cfg.splitMulticode (melt cfg t)

/-- The answer tokens a single raw cell contributes: none when the cell is
null or scrubs to a ghost blank; one token per surviving comma-piece when
splitting; its whole trimmed rendering otherwise. -/
def cellTokens (split : Bool) (c : Cell) : List String :=
  if c = Cell.null then []
  else if pyTrim (pyStr c) ∈ ghost_blanks then []
  else if split then
    ((pySplitComma (pyTrim (pyStr c))).map pyTrim).filter (fun a => decide (a ∉ ghost_blanks))
  else [pyTrim (pyStr c)]

/-- One step of first-appearance deduplication: append the value unless it
was seen already. -/
def dedupStep {α : Type} [DecidableEq α] (acc : List α) (a : α) : List α :=
  if a ∈ acc then acc else acc ++ [a]

/-- First-appearance deduplication: the distinct values of a list, each kept
at its first appearance (the order `pandas.Series.unique` preserves,
line 73). -/
def dedupFirst {α : Type} [DecidableEq α] (l : List α) : List α :=
  l.foldl dedupStep []

/-- `unique_answers` (line 73): the distinct answer tokens in order of first
appearance across the whole long-record sequence. -/
def unique_answers (cfg : Config) (t : Table) : List String :=
  dedupFirst ((long_data cfg t).map (fun r => r.answer))

/-- `Series.nunique`: the number of distinct non-null values. -/
def nunique (l : List Cell) : Nat :=
  (dedupFirst (l.filter (fun c => decide (c ≠ Cell.null)))).length

/-- Half-up decimal rounding to `d` places on rationals, modelling
`round(x, d)` on floats (numpy half-even differs only at exact ties). -/
def roundTo (d : Nat) (x : ℚ) : ℚ :=
  (Int.floor (x * 10 ^ d + 1 / 2) : ℚ) / 10 ^ d

/-- `.round(1)` (line 90). -/
def round1 : ℚ → ℚ := roundTo 1

/-- `.round(3)` applied to coefficients (line 165). -/
def round3 : ℚ → ℚ := roundTo 3

/-- `.round(4)` applied to p-values (line 166). -/
def round4 : ℚ → ℚ := roundTo 4

/-- The demographic value a long record carries for column `col`
(`long_data[col]`); `demos` is aligned with `Config.demoCols`. -/
def demoVal (cfg : Config) (r : LongRec) (col : String) : Cell :=
  match cfg.demoCols.findIdx? (fun h => h = col) with
  | some i => r.demos.getD i Cell.null
  | none => Cell.null

/-- The `overall` crosstab count (line 78): the number of long records with
the given question and answer (`pd.crosstab` counts rows). -/
def overallCount (cfg : Config) (t : Table) (q a : String) : Nat :=
  ((long_data cfg t).filter (fun r => decide (r.question = q ∧ r.answer = a))).length

/-- The `demo_tab` crosstab count (line 84): the number of long records with
the given question, answer and demographic category. -/
def demoCount (cfg : Config) (t : Table) (q a : String) (col : String) (cat : Cell) : Nat :=
  ((long_data cfg t).filter
    (fun r => decide (r.question = q ∧ r.answer = a ∧ demoVal cfg r col = cat))).length

/-- `overall_bases` (line 79): distinct respondent ids among a question's
long records (`groupby('Question')[id_col].nunique()`). -/
def overall_bases (cfg : Config) (t : Table) (q : String) : Nat :=
  nunique (((long_data cfg t).filter (fun r => decide (r.question = q))).map (fun r => r.id))

/-- `demo_bases` (line 85): distinct respondent ids among a question's long
records restricted to one demographic category
(`groupby(['Question', col])[id_col].nunique()`). -/
def demo_bases (cfg : Config) (t : Table) (q : String) (col : String) (cat : Cell) : Nat :=
  nunique (((long_data cfg t).filter
    (fun r => decide (r.question = q ∧ demoVal cfg r col = cat))).map (fun r => r.id))

/-- The overall entry of `base_sizes` (line 92): `df[id_col].nunique()`
on the raw table. -/
def base_sizes_overall (cfg : Config) (t : Table) : Nat :=
  nunique (t.rows.map (fun r => getCell t.header r cfg.idCol))

/-- The per-category entries of `base_sizes` (lines 93-96):
`df.groupby(col)[id_col].nunique()` on the raw table. -/
def base_sizes_cat (cfg : Config) (t : Table) (col : String) (cat : Cell) : Nat :=
  nunique ((t.rows.filter (fun r => decide (getCell t.header r col = cat))).map
    (fun r => getCell t.header r cfg.idCol))

/-- Code-point lexicographic string comparison (Python's `str` order, which
is what pandas uses to sort string group keys). -/
def strLeB : List Char → List Char → Bool
  | [], _ => true
  | _ :: _, [] => false
  | a :: as, b :: bs =>
    if a.toNat < b.toNat then true
    else if b.toNat < a.toNat then false
    else strLeB as bs

/-- The ascending order pandas `groupby`/`crosstab` sort category keys in:
integers by value, strings lexicographically.  Mixed numeric/string columns
raise in pandas; the cross-constructor cases here are an arbitrary total
completion and are never exercised by homogeneous columns. -/
def cellR : Cell → Cell → Prop
  | Cell.null, _ => True
  | Cell.int _, Cell.null => False
  | Cell.int m, Cell.int n => m ≤ n
  | Cell.int _, Cell.str _ => True
  | Cell.str _, Cell.null => False
  | Cell.str _, Cell.int _ => False
  | Cell.str s, Cell.str u => strLeB s.data u.data = true

instance : DecidableRel cellR := fun a b =>
  match a, b with
  | Cell.null, Cell.null => isTrue trivial
  | Cell.null, Cell.str _ => isTrue trivial
  | Cell.null, Cell.int _ => isTrue trivial
  | Cell.int _, Cell.null => isFalse id
  | Cell.int m, Cell.int n => inferInstanceAs (Decidable (m ≤ n))
  | Cell.int _, Cell.str _ => isTrue trivial
  | Cell.str _, Cell.null => isFalse id
  | Cell.str _, Cell.int _ => isFalse id
  | Cell.str s, Cell.str u => inferInstanceAs (Decidable (strLeB s.data u.data = true))

theorem strLeB_total (xs ys : List Char) : strLeB xs ys = true ∨ strLeB ys xs = true := by
  induction xs generalizing ys with
  | nil => exact Or.inl rfl
  | cons a as ih =>
    cases ys with
    | nil => exact Or.inr rfl
    | cons b bs =>
      by_cases h1 : a.toNat < b.toNat
      · exact Or.inl (by simp [strLeB, h1])
      · by_cases h2 : b.toNat < a.toNat
        · exact Or.inr (by simp [strLeB, h2])
        · rcases ih bs with h | h
          · exact Or.inl (by simp [strLeB, h1, h2, h])
          · exact Or.inr (by simp [strLeB, h1, h2, h])

theorem strLeB_trans (xs ys zs : List Char) (h1 : strLeB xs ys = true)
    (h2 : strLeB ys zs = true) : strLeB xs zs = true := by
  induction xs generalizing ys zs with
  | nil => rfl
  | cons a as ih =>
    cases ys with
    | nil => simp [strLeB] at h1
    | cons b bs =>
      cases zs with
      | nil => simp [strLeB] at h2
      | cons c cs =>
        simp only [strLeB] at h1 h2 ⊢
        by_cases hab : a.toNat < b.toNat
        · by_cases hbc : b.toNat < c.toNat
          · simp [show a.toNat < c.toNat by omega]
          · by_cases hcb : c.toNat < b.toNat
            · simp [hbc, hcb] at h2
            · simp [show a.toNat < c.toNat by omega]
        · by_cases hba : b.toNat < a.toNat
          · simp [hab, hba] at h1
          · by_cases hbc : b.toNat < c.toNat
            · simp [show a.toNat < c.toNat by omega]
            · by_cases hcb : c.toNat < b.toNat
              · simp [hbc, hcb] at h2
              · have hac : ¬ a.toNat < c.toNat := by omega
                have hca : ¬ c.toNat < a.toNat := by omega
                simp only [if_neg hab, if_neg hba] at h1
                simp only [if_neg hbc, if_neg hcb] at h2
                simp only [if_neg hac, if_neg hca]
                exact ih bs cs h1 h2

instance : IsTotal Cell cellR where
  total a b := by
    cases a <;> cases b <;> simp only [cellR] <;>
      first
      | exact Or.inl trivial
      | exact Or.inr trivial
      | exact le_total _ _
      | exact strLeB_total _ _

instance : IsTrans Cell cellR where
  trans a b c hab hbc := by
    cases a <;> cases b <;> cases c <;> simp only [cellR] at * <;>
      first
      | trivial
      | exact le_trans hab hbc
      | exact strLeB_trans _ _ _ hab hbc

/-- Sorting a list of category cells the way pandas `groupby(sort=True)`
orders group keys. -/
def sortCells (l : List Cell) : List Cell := List.insertionSort cellR l

/-- The distinct non-null values of a raw-table column, in sorted order: the
categories `df.groupby(col)` (line 94) produces, which is also the final
column set for that banner column. -/
def rawCats (t : Table) (col : String) : List Cell :=
  sortCells (dedupFirst ((t.rows.map (fun r => getCell t.header r col)).filter
    (fun c => decide (c ≠ Cell.null))))

/-- The column label `f"{col}: {str(c)}"` (lines 87, 96). -/
def colLabel (col : String) (c : Cell) : String := col ++ ": " ++ pyStr c

/-- The value columns of the assembled report, left to right: `"Overall %"`
then, per banner column, one column per category. -/
def report_columns (cfg : Config) (t : Table) : List String :=
  "Overall %" :: cfg.demoCols.flatMap (fun col => (rawCats t col).map (colLabel col))

/-- The distinct answers observed for one question, in first-appearance
order of the full long-record sequence. -/
def answersSeen (cfg : Config) (t : Table) (q : String) : List String :=
  (unique_answers cfg t).filter (fun a => decide (overallCount cfg t q a ≠ 0))

/-- The (question, answer) row keys of the percentage block, in report
order: questions in caller order, answers within a question in
first-appearance order. -/
def observedPairs (cfg : Config) (t : Table) : List (String × String) :=
  cfg.questionCols.flatMap (fun q => (answersSeen cfg t q).map (fun a => (q, a)))

/-- One `"Overall %"` percentage cell (lines 80, 90): count divided by the
question base, times 100, rounded to one decimal (0 when the base is 0). -/
def overallCell (cfg : Config) (t : Table) (q a : String) : ℚ :=
  round1 (100 * (overallCount cfg t q a : ℚ) / (overall_bases cfg t q : ℚ))

/-- One per-category percentage cell (lines 86, 90): count divided by the
question-by-category base, times 100, rounded to one decimal. -/
def demoCellVal (cfg : Config) (t : Table) (q a : String) (col : String) (cat : Cell) : ℚ :=
  round1 (100 * (demoCount cfg t q a col cat : ℚ) / (demo_bases cfg t q col cat : ℚ))

/-- The value cells of one (question, answer) report row, aligned with
`report_columns`. -/
def qa_row (cfg : Config) (t : Table) (q a : String) : List ℚ :=
  overallCell cfg t q a ::
    cfg.demoCols.flatMap (fun col => (rawCats t col).map (demoCellVal cfg t q a col))

/-- The value cells of the BASE SIZE row (lines 92-99), aligned with
`report_columns`. -/
def base_row (cfg : Config) (t : Table) : List ℚ :=
  (base_sizes_overall cfg t : ℚ) ::
    cfg.demoCols.flatMap (fun col =>
      (rawCats t col).map (fun cat => (base_sizes_cat cfg t col cat : ℚ)))

/-- The assembled `final_report` (lines 90-104): the BASE SIZE row first,
then one row per observed (question, answer) pair, each row carrying its
value cells in `report_columns` order. -/
def final_report (cfg : Config) (t : Table) : List ((String × String) × List ℚ) :=
  (("BASE SIZE", "Total Survey Participants (n)"), base_row cfg t) ::
    (observedPairs cfg t).map (fun p => (p, qa_row cfg t p.1 p.2))

/-- The case-sensitive ordinal scale keys of `scale_mapping` (lines 138-141). -/
def scale_keys : List String :=
  ["Strongly agree", "Agree", "Neutral", "Disagree", "Strongly disagree",
   "Strongly Agree", "Strongly Disagree"]

/-- `scale_mapping.get(s, NA)` (lines 138-141, 145): the fixed
text-to-number dictionary lookup. -/
def scale_mapping (s : String) : Option Nat :=
  if s = "Strongly agree" then some 5
  else if s = "Agree" then some 4
  else if s = "Neutral" then some 3
  else if s = "Disagree" then some 2
  else if s = "Strongly disagree" then some 1
  else if s = "Strongly Agree" then some 5
  else if s = "Strongly Disagree" then some 1
  else none

/-- `scale_mapping.get(str(x).strip(), pd.NA)` (line 145): every cell is
stringified and trimmed before the dictionary lookup. -/
def mapCell (c : Cell) : Option Nat :=
  scale_mapping (pyTrim (pyStr c))

/-- `reg_data` after the mapping loop (lines 135-145): one vector per
respondent row over the target column followed by the driver columns. -/
def reg_data (t : Table) (target : String) (drivers : List String) :
    List (List (Option Nat)) :=
  t.rows.map (fun r => (target :: drivers).map (fun col => mapCell (getCell t.header r col)))

/-- `clean_reg_data = reg_data.dropna()` (line 148): list-wise deletion of
any respondent row with a missing value. -/
def clean_reg_data (t : Table) (target : String) (drivers : List String) :
    List (List (Option Nat)) :=
  (reg_data t target drivers).filter (fun v => v.all Option.isSome)

/-- One output row of the driver table (lines 163-173); the
`"✅ Yes"`/`"❌ No"` label is modelled as a boolean flag. -/
structure DriverRow where
  name : String
  coef : ℚ
  pval : ℚ
  significant : Bool
  deriving DecidableEq, Repr

/-- Descending order on coefficients (`sort_values(..., ascending=False)`,
line 176). -/
def coefDesc : DriverRow → DriverRow → Prop := fun x y => y.coef ≤ x.coef

instance : DecidableRel coefDesc := fun x y => inferInstanceAs (Decidable (y.coef ≤ x.coef))

instance : IsTotal DriverRow coefDesc := ⟨fun a b => le_total b.coef a.coef⟩

instance : IsTrans DriverRow coefDesc := ⟨fun _ _ _ h1 h2 => le_trans h2 h1⟩

/-- `results_df` (lines 163-176) applied to the fitted
(name, coefficient, p-value) triples: round the coefficients to 3 and the
p-values to 4 decimals, drop the `"const"` intercept row, flag significance
when the (rounded) p-value is below 0.05, and sort by coefficient
descending. -/
def results_df (fitted : List (String × ℚ × ℚ)) : List DriverRow :=
  let rounded := fitted.map (fun e => (e.1, round3 e.2.1, round4 e.2.2))
  let noConst := rounded.filter (fun e => decide (e.1 ≠ "const"))
  let flagged := noConst.map (fun e =>
    { name := e.1, coef := e.2.1, pval := e.2.2,
      significant := decide (e.2.2 < (5 / 100 : ℚ)) : DriverRow })
  List.insertionSort coefDesc flagged

/-- The driver engine (lines 128-176) with the OLS fit abstracted as an
oracle `fit` from the cleaned numeric rows to fitted
(name, coefficient, p-value) triples: fail when fewer than 15 complete rows
remain, otherwise produce the full formatted driver table. -/
def run_driver_analysis (fit : List (List ℚ) → List (String × ℚ × ℚ))
    (t : Table) (target : String) (drivers : List String) :
    Except String (List DriverRow) :=
  let clean := clean_reg_data t target drivers
  if clean.length < 15 then Except.error "InsufficientDataError"
  else Except.ok (results_df (fit (clean.map (fun v => v.map (fun o => ((o.getD 0 : Nat) : ℚ))))))

/-! Concrete example inputs used by witnesses and counterexamples. -/

/-- Example configuration: one banner column, one multi-select question. -/
def cfg_c1 : Config := ⟨"RID", ["Region"], ["Q1"], true⟩

/-- Example table: a respondent with a two-token multi-select answer. -/
def tbl_c1 : Table := ⟨["RID", "Region", "Q1"],
  [[Cell.str "r1", Cell.str "North", Cell.str "Apple, Banana"],
   [Cell.str "r2", Cell.str "South", Cell.str "Apple"]]⟩

/-- Example configuration for the base-size row. -/
def cfg_c2 : Config := ⟨"RID", ["Region"], ["Q1"], false⟩

/-- Example table: three respondents, one of whom skipped the question. -/
def tbl_c2 : Table := ⟨["RID", "Region", "Q1"],
  [[Cell.str "r1", Cell.str "North", Cell.str "Yes"],
   [Cell.str "r2", Cell.str "North", Cell.str "No"],
   [Cell.str "r3", Cell.str "South", Cell.null]]⟩

/-- Example configuration with multi-select splitting on. -/
def cfg_c3 : Config := ⟨"RID", ["Region"], ["Q1"], true⟩

/-- Example table: one respondent whose cell repeats the same token. -/
def tbl_c3 : Table := ⟨["RID", "Region", "Q1"],
  [[Cell.str "r1", Cell.str "North", Cell.str "Apple, Apple"]]⟩

/-- Example configuration for column ordering. -/
def cfg_c4 : Config := ⟨"RID", ["Region"], ["Q1"], false⟩

/-- Example table whose categories first appear in non-alphabetical order. -/
def tbl_c4 : Table := ⟨["RID", "Region", "Q1"],
  [[Cell.str "r1", Cell.str "South", Cell.str "Yes"],
   [Cell.str "r2", Cell.str "North", Cell.str "Yes"]]⟩

/-- Example configuration with two questions. -/
def cfg_c5 : Config := ⟨"RID", ["Region"], ["Q1", "Q2"], false⟩

/-- Example table: three distinct (question, answer) pairs are observed. -/
def tbl_c5 : Table := ⟨["RID", "Region", "Q1", "Q2"],
  [[Cell.str "r1", Cell.str "North", Cell.str "Yes", Cell.str "Hi"],
   [Cell.str "r2", Cell.str "South", Cell.str "No", Cell.null]]⟩

/-- Example configuration with a ghost-blank multi-select token. -/
def cfg_c6 : Config := ⟨"RID", ["Region"], ["Q1"], true⟩

/-- Example table: a cell whose second comma-token trims to `"-"`. -/
def tbl_c6 : Table := ⟨["RID", "Region", "Q1"],
  [[Cell.str "r1", Cell.str "North", Cell.str "A, -"]]⟩

/-- Example table with a single complete regression row. -/
def tbl_c7 : Table := ⟨["RID", "T", "D"],
  [[Cell.str "r1", Cell.str "Agree", Cell.str "Agree"]]⟩

/-- A trivial OLS oracle used to exercise the driver engine's control flow. -/
def fit_c7 : List (List ℚ) → List (String × ℚ × ℚ) := fun _ => []

/-- Example configuration for null-demographic handling. -/
def cfg_c9 : Config := ⟨"RID", ["Region"], ["Q1"], false⟩

/-- Example table: one respondent's demographic value is missing. -/
def tbl_c9 : Table := ⟨["RID", "Region", "Q1"],
  [[Cell.str "r1", Cell.str "North", Cell.str "Yes"],
   [Cell.str "r2", Cell.null, Cell.str "Yes"],
   [Cell.str "r3", Cell.str "North", Cell.str "No"]]⟩

/-- Example table whose target column holds a numeric scale value. -/
def tbl_c10 : Table := ⟨["T", "D"],
  [[Cell.int 5, Cell.str "Agree"],
   [Cell.str "Agree", Cell.str "Neutral"]]⟩

/-! Helper lemmas about the embedded operations. -/

theorem mem_foldl_dedupStep {α : Type} [DecidableEq α] (l : List α) (acc : List α) (b : α) :
    b ∈ l.foldl dedupStep acc ↔ b ∈ acc ∨ b ∈ l := by
  induction l generalizing acc with
  | nil => simp
  | cons a l ih =>
    simp only [List.foldl_cons, ih, dedupStep, List.mem_cons]
    by_cases ha : a ∈ acc
    · simp only [if_pos ha]
      constructor
      · rintro (h | h) <;> tauto
      · rintro (h | h | h)
        · exact Or.inl h
        · exact Or.inl (h ▸ ha)
        · exact Or.inr h
    · simp only [if_neg ha, List.mem_append, List.mem_singleton]
      tauto

theorem nodup_foldl_dedupStep {α : Type} [DecidableEq α] (l : List α) (acc : List α)
    (h : acc.Nodup) : (l.foldl dedupStep acc).Nodup := by
  induction l generalizing acc with
  | nil => simpa
  | cons a l ih =>
    simp only [List.foldl_cons]
    apply ih
    unfold dedupStep
    by_cases ha : a ∈ acc
    · simpa [ha]
    · simp only [if_neg ha, List.nodup_append]
      exact ⟨h, List.nodup_singleton a, by simpa [List.disjoint_singleton] using ha⟩

theorem mem_dedupFirst {α : Type} [DecidableEq α] (l : List α) (b : α) :
    b ∈ dedupFirst l ↔ b ∈ l := by
  simpa [dedupFirst] using mem_foldl_dedupStep l [] b

theorem nodup_dedupFirst {α : Type} [DecidableEq α] (l : List α) :
    (dedupFirst l).Nodup :=
  nodup_foldl_dedupStep l [] List.nodup_nil

theorem toFinset_dedupFirst {α : Type} [DecidableEq α] (l : List α) :
    (dedupFirst l).toFinset = l.toFinset := by
  ext x
  simp [List.mem_toFinset, mem_dedupFirst]

/-- `nunique` is the cardinality of the set of distinct non-null values. -/
theorem nunique_eq_card (l : List Cell) :
    nunique l = (l.filter (fun c => decide (c ≠ Cell.null))).toFinset.card := by
  unfold nunique
  rw [← toFinset_dedupFirst]
  exact (List.toFinset_card_of_nodup (nodup_dedupFirst _)).symm

/-- On a list of non-null cells, `nunique` is the number of distinct
values. -/
theorem nunique_eq_card_of_nonnull {l : List Cell} (h : ∀ c ∈ l, c ≠ Cell.null) :
    nunique l = l.toFinset.card := by
  rw [nunique_eq_card, List.filter_eq_self.mpr (fun a ha => decide_eq_true (h a ha))]

/-- The scrubbing stages process each melt candidate independently: the long
data is the concatenation, over candidates, of one record per token the
candidate's raw answer cell yields. -/
theorem pipeline_eq_flatMap (split : Bool) (l : List Cand) :
    pipeline split l = l.flatMap (fun c =>
      (cellTokens split c.rawAnswer).map
        (fun a => { id := c.id, demos := c.demos, question := c.question, answer := a })) := by
  induction l with
  | nil => cases split <;> rfl
  | cons c l ih =>
    by_cases h0 : c.rawAnswer = Cell.null
    · cases split <;>
        simpa [pipeline, cellTokens, h0, List.filter_cons, List.flatMap_cons] using ih
    · by_cases hg : pyTrim (pyStr c.rawAnswer) ∈ ghost_blanks
      · cases split <;>
          simpa [pipeline, cellTokens, h0, hg, List.filter_cons, List.flatMap_cons,
            stripAnswer] using ih
      · cases split
        · simpa [pipeline, cellTokens, h0, hg, List.filter_cons, List.flatMap_cons,
            stripAnswer] using ih
        · simp [pipeline, cellTokens, h0, hg, List.filter_cons, List.map_cons,
            List.flatMap_cons, List.filter_append, stripAnswer, List.filter_map,
            Function.comp_def] at ih ⊢
          rw [ih]

/-! Claim theorems. -/

/-- C1: every percentage cell inside the report divides by the
question-specific base — the count of distinct respondent ids among that
question's long records (restricted, for a category cell, to records whose
demographic column equals that category) — and each respondent id is counted
at most once in any such base, so a respondent whose multi-select cell
splits into several tokens contributes at most 1 to it. -/
theorem c1_question_specific_base (cfg : Config) (t : Table)
    (hid : ∀ r ∈ long_data cfg t, r.id ≠ Cell.null) :
    (∀ q a col cat, demoCellVal cfg t q a col cat =
        round1 (100 * (demoCount cfg t q a col cat : ℚ) / (demo_bases cfg t q col cat : ℚ)))
    ∧ (∀ q a, overallCell cfg t q a =
        round1 (100 * (overallCount cfg t q a : ℚ) / (overall_bases cfg t q : ℚ)))
    ∧ (∀ q col cat, demo_bases cfg t q col cat =
        (((long_data cfg t).filter
          (fun r => decide (r.question = q ∧ demoVal cfg r col = cat))).map
            (fun r => r.id)).toFinset.card)
    ∧ (∀ q, overall_bases cfg t q =
        (((long_data cfg t).filter (fun r => decide (r.question = q))).map
          (fun r => r.id)).toFinset.card)
    ∧ (∀ q x, List.count x
        (dedupFirst ((((long_data cfg t).filter (fun r => decide (r.question = q))).map
          (fun r => r.id)).filter (fun c => decide (c ≠ Cell.null)))) ≤ 1) := by
  refine ⟨fun _ _ _ _ => rfl, fun _ _ => rfl, ?_, ?_, ?_⟩
  · intro q col cat
    apply nunique_eq_card_of_nonnull
    intro c hc
    rcases List.mem_map.mp hc with ⟨r, hr, hrc⟩
    exact hrc ▸ hid r (List.mem_of_mem_filter hr)
  · intro q
    apply nunique_eq_card_of_nonnull
    intro c hc
    rcases List.mem_map.mp hc with ⟨r, hr, hrc⟩
    exact hrc ▸ hid r (List.mem_of_mem_filter hr)
  · intro q x
    exact List.nodup_iff_count_le_one.mp (nodup_dedupFirst _) x

/-- Witness for C1 on a concrete multi-select table: the question base for
`Q1` is the distinct-id count (here both respondents, each once, although
respondent `r1` produced two long records). -/
theorem c1_witness :
    overall_bases cfg_c1 tbl_c1 "Q1" =
      (((long_data cfg_c1 tbl_c1).filter (fun r => decide (r.question = "Q1"))).map
        (fun r => r.id)).toFinset.card
    ∧ overall_bases cfg_c1 tbl_c1 "Q1" = 2
    ∧ (long_data cfg_c1 tbl_c1).length = 3 :=
  ⟨(c1_question_specific_base cfg_c1 tbl_c1 (by decide)).2.2.2.1 "Q1",
   by decide, by decide⟩

/-- C2: the report's first row is the BASE SIZE row; its `"Overall %"` cell
is the count of distinct ids in the raw table, and its cell for every
(demographic column, category) pair is the count of distinct ids whose raw
value in that column equals that category — all computed from the raw table,
not from the long records. -/
theorem c2_base_size_row (cfg : Config) (t : Table)
    (hid : ∀ r ∈ t.rows, getCell t.header r cfg.idCol ≠ Cell.null) :
    (final_report cfg t).head? =
      some ((("BASE SIZE", "Total Survey Participants (n)"), base_row cfg t))
    ∧ base_row cfg t = (base_sizes_overall cfg t : ℚ) ::
        cfg.demoCols.flatMap (fun col =>
          (rawCats t col).map (fun cat => (base_sizes_cat cfg t col cat : ℚ)))
    ∧ base_sizes_overall cfg t =
        (t.rows.map (fun r => getCell t.header r cfg.idCol)).toFinset.card
    ∧ (∀ col cat, base_sizes_cat cfg t col cat =
        ((t.rows.filter (fun r => decide (getCell t.header r col = cat))).map
          (fun r => getCell t.header r cfg.idCol)).toFinset.card) := by
  refine ⟨rfl, rfl, ?_, ?_⟩
  · apply nunique_eq_card_of_nonnull
    intro c hc
    rcases List.mem_map.mp hc with ⟨r, hr, hrc⟩
    exact hrc ▸ hid r hr
  · intro col cat
    apply nunique_eq_card_of_nonnull
    intro c hc
    rcases List.mem_map.mp hc with ⟨r, hr, hrc⟩
    exact hrc ▸ hid r (List.mem_of_mem_filter hr)

/-- Witness for C2 on a concrete table: the BASE SIZE row counts all three
distinct raw ids even though one respondent answered nothing, and the
`Region: North` base counts its two distinct ids. -/
theorem c2_witness :
    base_sizes_overall cfg_c2 tbl_c2 =
      (tbl_c2.rows.map (fun r => getCell tbl_c2.header r cfg_c2.idCol)).toFinset.card
    ∧ base_sizes_overall cfg_c2 tbl_c2 = 3
    ∧ base_sizes_cat cfg_c2 tbl_c2 "Region" (Cell.str "North") = 2 :=
  ⟨(c2_base_size_row cfg_c2 tbl_c2 (by decide)).2.2.1, by decide, by decide⟩

/-- A (question, answer) numerator is nonzero exactly when some long record
carries that question and answer. -/
theorem overallCount_ne_zero (cfg : Config) (t : Table) (q a : String) :
    overallCount cfg t q a ≠ 0 ↔
      ∃ r ∈ long_data cfg t, r.question = q ∧ r.answer = a := by
  unfold overallCount
  rw [Ne, List.length_eq_zero, List.filter_eq_nil_iff]
  push_neg
  simp only [decide_eq_true_eq, Decidable.not_not]

/-- The answers listed for a question are exactly the distinct answers of
its long records. -/
theorem answersSeen_length (cfg : Config) (t : Table) (q : String) :
    (answersSeen cfg t q).length =
      (((long_data cfg t).filter (fun r => decide (r.question = q))).map
        (fun r => r.answer)).toFinset.card := by
  unfold answersSeen unique_answers
  rw [← List.toFinset_card_of_nodup ((nodup_dedupFirst _).filter _)]
  congr 1
  ext a
  simp only [answersSeen, unique_answers, List.mem_toFinset, List.mem_filter,
    mem_dedupFirst, List.mem_map, decide_eq_true_eq]
  constructor
  · rintro ⟨-, hcnt⟩
    rcases (overallCount_ne_zero cfg t q a).mp hcnt with ⟨r, hr, hq, ha⟩
    exact ⟨r, ⟨hr, hq⟩, ha⟩
  · rintro ⟨r, ⟨hr, hq⟩, ha⟩
    exact ⟨⟨r, hr, ha⟩,
      (overallCount_ne_zero cfg t q a).mpr ⟨r, hr, hq, ha⟩⟩

/-- The category-column list of a banner column has one entry per distinct
non-null raw value. -/
theorem rawCats_length (t : Table) (col : String) :
    (rawCats t col).length =
      ((t.rows.map (fun r => getCell t.header r col)).filter
        (fun c => decide (c ≠ Cell.null))).toFinset.card := by
  have h1 := (List.perm_insertionSort cellR (dedupFirst
    ((t.rows.map (fun r => getCell t.header r col)).filter
      (fun c => decide (c ≠ Cell.null))))).length_eq
  have h2 := List.toFinset_card_of_nodup (nodup_dedupFirst
    ((t.rows.map (fun r => getCell t.header r col)).filter
      (fun c => decide (c ≠ Cell.null))))
  rw [toFinset_dedupFirst] at h2
  exact h1.trans h2.symm

/-- C3 counterexample: with `split_multicode=true` and the single answer cell
`"Apple, Apple"`, the code's numerator for (Q1, Apple) is 2 long records
while only 1 distinct respondent id is involved, and the report shows 200%
— so the numerator is not a distinct-respondent count as claimed. -/
theorem c3_counterexample :
    overallCount cfg_c3 tbl_c3 "Q1" "Apple" = 2
    ∧ (((long_data cfg_c3 tbl_c3).filter
        (fun r => decide (r.question = "Q1" ∧ r.answer = "Apple"))).map
          (fun r => r.id)).toFinset.card = 1
    ∧ overallCell cfg_c3 tbl_c3 "Q1" "Apple" = 200 := by
  refine ⟨by decide, by decide, ?_⟩
  have h1 : overallCount cfg_c3 tbl_c3 "Q1" "Apple" = 2 := by decide
  have h2 : overall_bases cfg_c3 tbl_c3 "Q1" = 1 := by decide
  rw [overallCell, h1, h2]
  norm_num [round1, roundTo]

/-- C3 (amended): the numerators of the percentage cells are counts of Long
Records (rows), not of distinct respondent ids — the distinct-id count is
only a lower bound, and a respondent whose multi-select cell repeats a token
contributes once per repetition. -/
theorem c3_rowcount_numerators (cfg : Config) (t : Table) :
    (∀ q a, overallCount cfg t q a =
        (long_data cfg t).countP (fun r => decide (r.question = q ∧ r.answer = a)))
    ∧ (∀ q a col cat, demoCount cfg t q a col cat =
        (long_data cfg t).countP
          (fun r => decide (r.question = q ∧ r.answer = a ∧ demoVal cfg r col = cat)))
    ∧ (∀ q a, (((long_data cfg t).filter
        (fun r => decide (r.question = q ∧ r.answer = a))).map
          (fun r => r.id)).toFinset.card ≤ overallCount cfg t q a)
    ∧ (∀ q a, overallCell cfg t q a =
        round1 (100 * (overallCount cfg t q a : ℚ) / (overall_bases cfg t q : ℚ))) := by
  refine ⟨fun q a => (List.countP_eq_length_filter _ _).symm,
    fun q a col cat => (List.countP_eq_length_filter _ _).symm,
    fun q a => ?_, fun _ _ => rfl⟩
  calc (((long_data cfg t).filter
      (fun r => decide (r.question = q ∧ r.answer = a))).map
        (fun r => r.id)).toFinset.card
      ≤ (((long_data cfg t).filter
          (fun r => decide (r.question = q ∧ r.answer = a))).map
            (fun r => r.id)).length := List.toFinset_card_le _
    _ = overallCount cfg t q a := by rw [List.length_map]; rfl

/-- C4 counterexample: category `South` appears first in the raw table, yet
the report's Region columns come out in ascending sorted order
(North before South) — so categories are not ordered by first appearance. -/
theorem c4_counterexample :
    report_columns cfg_c4 tbl_c4 = ["Overall %", "Region: North", "Region: South"]
    ∧ dedupFirst ((tbl_c4.rows.map (fun r => getCell tbl_c4.header r "Region")).filter
        (fun c => decide (c ≠ Cell.null))) = [Cell.str "South", Cell.str "North"] := by
  exact ⟨by decide, by decide⟩

/-- C4 (amended): the report's rows are the BASE SIZE row first, then one
contiguous block per question in the caller-selected order, answers within a
question in first-appearance order of the full long-record sequence; the
(demographic column, category) columns appear per column in ascending sorted
order of the category values — not in raw-table first-appearance order. -/
theorem c4_report_ordering (cfg : Config) (t : Table) :
    (final_report cfg t).map (fun p => p.1) =
      ("BASE SIZE", "Total Survey Participants (n)") ::
        cfg.questionCols.flatMap (fun q => (answersSeen cfg t q).map (fun a => (q, a)))
    ∧ (observedPairs cfg t).map (fun p => p.1) =
        cfg.questionCols.flatMap (fun q => (answersSeen cfg t q).map (fun _ => q))
    ∧ unique_answers cfg t = dedupFirst ((long_data cfg t).map (fun r => r.answer))
    ∧ (∀ q, answersSeen cfg t q =
        (unique_answers cfg t).filter (fun a => decide (overallCount cfg t q a ≠ 0)))
    ∧ report_columns cfg t = "Overall %" ::
        cfg.demoCols.flatMap (fun col => (rawCats t col).map (colLabel col))
    ∧ (∀ col, List.Sorted cellR (rawCats t col))
    ∧ (∀ col, (rawCats t col).Perm (dedupFirst
        ((t.rows.map (fun r => getCell t.header r col)).filter
          (fun c => decide (c ≠ Cell.null))))) := by
  refine ⟨?_, ?_, rfl, fun _ => rfl, rfl,
    fun col => List.sorted_insertionSort cellR _,
    fun col => List.perm_insertionSort cellR _⟩
  · simp only [final_report, List.map_cons, List.map_map, Function.comp_def,
      observedPairs]
    rw [List.map_id']
  · simp only [observedPairs, List.map_flatMap, List.map_map, Function.comp_def]

/-- C5: the assembled report has exactly 1 + Σ (distinct answers seen per
question) rows and 1 + Σ (distinct non-null categories per demographic
column) value columns, and every (question, answer) row key is realised by
some long record. -/
theorem c5_report_shape (cfg : Config) (t : Table) :
    (final_report cfg t).length = 1 + (cfg.questionCols.map (fun q =>
        (((long_data cfg t).filter (fun r => decide (r.question = q))).map
          (fun r => r.answer)).toFinset.card)).sum
    ∧ (report_columns cfg t).length = 1 + (cfg.demoCols.map (fun col =>
        ((t.rows.map (fun r => getCell t.header r col)).filter
          (fun c => decide (c ≠ Cell.null))).toFinset.card)).sum
    ∧ (∀ p ∈ observedPairs cfg t, ∃ r ∈ long_data cfg t,
        r.question = p.1 ∧ r.answer = p.2) := by
  refine ⟨?_, ?_, ?_⟩
  · have h : (observedPairs cfg t).length = (cfg.questionCols.map (fun q =>
        (((long_data cfg t).filter (fun r => decide (r.question = q))).map
          (fun r => r.answer)).toFinset.card)).sum := by
      rw [observedPairs, List.length_flatMap]
      refine congrArg List.sum (List.map_congr_left (fun q _ => ?_))
      simp only [Function.comp_def, List.length_map]
      exact answersSeen_length cfg t q
    rw [show (final_report cfg t).length = (observedPairs cfg t).length + 1 by
      simp [final_report]]
    rw [h, Nat.add_comm]
  · have h : (cfg.demoCols.flatMap
        (fun col => (rawCats t col).map (colLabel col))).length =
        (cfg.demoCols.map (fun col =>
          ((t.rows.map (fun r => getCell t.header r col)).filter
            (fun c => decide (c ≠ Cell.null))).toFinset.card)).sum := by
      rw [List.length_flatMap]
      refine congrArg List.sum (List.map_congr_left (fun col _ => ?_))
      simp only [Function.comp_def, List.length_map]
      exact rawCats_length t col
    rw [show (report_columns cfg t).length = (cfg.demoCols.flatMap
        (fun col => (rawCats t col).map (colLabel col))).length + 1 by
      simp [report_columns]]
    rw [h, Nat.add_comm]
  · intro p hp
    simp only [observedPairs, List.mem_flatMap, List.mem_map] at hp
    rcases hp with ⟨q, hq, a, ha, rfl⟩
    have : overallCount cfg t q a ≠ 0 := by
      have := List.of_mem_filter ha
      simpa using this
    rcases (overallCount_ne_zero cfg t q a).mp this with ⟨r, hr, hrq, hra⟩
    exact ⟨r, hr, hrq, hra⟩

/-- Every token a cell contributes to the long data survives the ghost-blank
filter. -/
theorem mem_cellTokens_not_ghost {split : Bool} {x : Cell} {a : String}
    (h : a ∈ cellTokens split x) : a ∉ ghost_blanks := by
  unfold cellTokens at h
  split_ifs at h with h1 h2 h3
  · simp at h
  · simp at h
  · rcases List.mem_filter.mp h with ⟨-, hd⟩
    simpa using hd
  · rcases List.mem_singleton.mp h with rfl
    exact h2

/-- C6: the long data decomposes cell-by-cell; a null cell, or one whose
stringified trimmed value is a ghost-blank sentinel, contributes zero Long
Records; every surviving record's answer token (in particular each trimmed
comma-token under splitting) is a non-sentinel; and no sentinel string ever
appears as a numerator key. -/
theorem c6_absent_values_excluded (cfg : Config) (t : Table) :
    long_data cfg t = (melt cfg t).flatMap (fun c =>
      (cellTokens cfg.splitMulticode c.rawAnswer).map
        (fun a => { id := c.id, demos := c.demos, question := c.question, answer := a }))
    ∧ (∀ c : Cell, (c = Cell.null ∨ pyTrim (pyStr c) ∈ ghost_blanks) →
        ∀ split : Bool, cellTokens split c = [])
    ∧ (∀ r ∈ long_data cfg t, r.answer ∉ ghost_blanks)
    ∧ (∀ q a, a ∈ ghost_blanks → overallCount cfg t q a = 0) := by
  have hng : ∀ r ∈ long_data cfg t, r.answer ∉ ghost_blanks := by
    intro r hr
    rw [long_data, pipeline_eq_flatMap] at hr
    rcases List.mem_flatMap.mp hr with ⟨c, -, hm⟩
    rcases List.mem_map.mp hm with ⟨a, ha, rfl⟩
    exact mem_cellTokens_not_ghost ha
  refine ⟨pipeline_eq_flatMap _ _, ?_, hng, ?_⟩
  · intro c h split
    by_cases hc : c = Cell.null
    · simp [cellTokens, hc]
    · rcases h with h | h
      · exact absurd h hc
      · simp [cellTokens, hc, h]
  · intro q a hga
    rw [overallCount, List.length_eq_zero, List.filter_eq_nil_iff]
    intro r hr
    simp only [decide_eq_true_eq, not_and]
    intro _ hra
    exact hng r hr (by rw [hra]; exact hga)

/-- Witness for C6: the token `" - "` trims to the sentinel `"-"` and is
dropped, the sentinel is never a numerator key, and the cell `"A, -"`
contributes exactly one long record. -/
theorem c6_witness :
    cellTokens true (Cell.str " - ") = []
    ∧ overallCount cfg_c6 tbl_c6 "Q1" "-" = 0
    ∧ long_data cfg_c6 tbl_c6 =
        [⟨Cell.str "r1", [Cell.str "North"], "Q1", "A"⟩] :=
  ⟨(c6_absent_values_excluded cfg_c6 tbl_c6).2.1 (Cell.str " - ") (Or.inr (by decide)) true,
   (c6_absent_values_excluded cfg_c6 tbl_c6).2.2.2 "Q1" "-" (by decide),
   by decide⟩

/-- C7: with fewer than 15 complete respondent rows after ordinal mapping
and list-wise deletion the driver engine fails with the insufficient-data
error and returns nothing else; with 15 or more it runs the OLS fit (an
oracle here) and returns the complete formatted driver table. -/
theorem c7_regression_floor (fit : List (List ℚ) → List (String × ℚ × ℚ))
    (t : Table) (target : String) (drivers : List String) :
    ((clean_reg_data t target drivers).length < 15 →
      run_driver_analysis fit t target drivers = Except.error "InsufficientDataError")
    ∧ (15 ≤ (clean_reg_data t target drivers).length →
      run_driver_analysis fit t target drivers = Except.ok (results_df (fit
        ((clean_reg_data t target drivers).map
          (fun v => v.map (fun o => ((o.getD 0 : Nat) : ℚ))))))) := by
  constructor
  · intro h
    simp only [run_driver_analysis]
    rw [if_pos h]
  · intro h
    simp only [run_driver_analysis]
    rw [if_neg (Nat.not_lt.mpr h)]

/-- Witness for C7: one complete row is below the floor, so the engine
fails with the insufficient-data error. -/
theorem c7_witness :
    run_driver_analysis fit_c7 tbl_c7 "T" ["D"] = Except.error "InsufficientDataError"
    ∧ (clean_reg_data tbl_c7 "T" ["D"]).length = 1 :=
  ⟨(c7_regression_floor fit_c7 tbl_c7 "T" ["D"]).1 (by decide), by decide⟩

/-- C8 counterexample: a driver whose p-value is 0.049996 — below 0.05 — is
flagged *not* significant, because the code compares the p-value only after
rounding it to 4 decimals (where it becomes exactly 0.05). -/
theorem c8_counterexample :
    results_df [("const", 0, 0), ("D1", 2, 49996 / 1000000)] =
      [{ name := "D1", coef := 2, pval := 1 / 20, significant := false }]
    ∧ ((49996 / 1000000 : ℚ) < 5 / 100) := by
  constructor
  · have h3 : round3 (2 : ℚ) = 2 := by norm_num [round3, roundTo]
    have h4 : round4 ((49996 : ℚ) / 1000000) = 1 / 20 := by norm_num [round4, roundTo]
    have h5 : ¬ ((1 : ℚ) / 20 < 5 / 100) := by norm_num
    simp [results_df, List.insertionSort, List.orderedInsert, h3, h4,
      decide_eq_false h5]
    norm_num
  · norm_num

/-- C8 (amended): the driver table holds exactly one row per selected driver
(the intercept row is excluded), with the coefficient rounded to 3 decimals,
the p-value rounded to 4 decimals, the significance flag set exactly when
the *rounded* p-value is below 0.05, and rows sorted by coefficient in
descending order. -/
theorem c8_driver_table (c0 p0 : ℚ) (drivers : List String) (cps : List (ℚ × ℚ))
    (hc : "const" ∉ drivers) (hl : drivers.length = cps.length) :
    (results_df (("const", c0, p0) :: drivers.zip cps)).Perm
      ((drivers.zip cps).map (fun e =>
        { name := e.1, coef := round3 e.2.1, pval := round4 e.2.2,
          significant := decide (round4 e.2.2 < (5 / 100 : ℚ)) : DriverRow }))
    ∧ List.Sorted coefDesc (results_df (("const", c0, p0) :: drivers.zip cps))
    ∧ (results_df (("const", c0, p0) :: drivers.zip cps)).length = drivers.length := by
  have hkeep : ∀ e ∈ (drivers.zip cps).map
      (fun e => (e.1, round3 e.2.1, round4 e.2.2)),
      decide (e.1 ≠ "const") = true := by
    intro e he
    rcases List.mem_map.mp he with ⟨x, hx, rfl⟩
    have hx1 := (List.of_mem_zip hx).1
    simp only [decide_eq_true_eq]
    intro hEq
    exact hc (hEq ▸ hx1)
  have hflag : results_df (("const", c0, p0) :: drivers.zip cps) =
      List.insertionSort coefDesc ((drivers.zip cps).map (fun e =>
        { name := e.1, coef := round3 e.2.1, pval := round4 e.2.2,
          significant := decide (round4 e.2.2 < (5 / 100 : ℚ)) : DriverRow })) := by
    simp only [results_df, List.map_cons, List.filter_cons]
    rw [show (decide ((("const", round3 c0, round4 p0) :
        String × ℚ × ℚ).1 ≠ "const")) = false by simp]
    rw [if_neg Bool.false_ne_true]
    rw [List.filter_eq_self.mpr hkeep, List.map_map]
    rfl
  refine ⟨?_, ?_, ?_⟩
  · rw [hflag]
    exact List.perm_insertionSort _ _
  · rw [hflag]
    exact List.sorted_insertionSort _ _
  · rw [hflag, (List.perm_insertionSort _ _).length_eq, List.length_map,
      List.length_zip, hl]
    exact Nat.min_self _

/-- Witness for C8 on two concrete drivers: the formatted table is sorted by
coefficient descending and has one row per driver. -/
theorem c8_witness :
    List.Sorted coefDesc (results_df (("const", 7, 1) ::
      ["D1", "D2"].zip [((1 : ℚ), (2 : ℚ) / 10), ((3 : ℚ), (1 : ℚ) / 100)]))
    ∧ (results_df (("const", 7, 1) ::
      ["D1", "D2"].zip [((1 : ℚ), (2 : ℚ) / 10), ((3 : ℚ), (1 : ℚ) / 100)])).length = 2 :=
  ⟨(c8_driver_table 7 1 ["D1", "D2"] [((1 : ℚ), (2 : ℚ) / 10), ((3 : ℚ), (1 : ℚ) / 100)]
      (by decide) rfl).2.1,
   (c8_driver_table 7 1 ["D1", "D2"] [((1 : ℚ), (2 : ℚ) / 10), ((3 : ℚ), (1 : ℚ) / 100)]
      (by decide) rfl).2.2⟩

/-- C9: a respondent whose value in a demographic column is null contributes
to no category of that column: the raw-table category bases, the in-table
question-by-category bases, and the per-category numerators are all
unchanged when the null-demographic rows are dropped first; consequently a
column's category bases need not sum to the overall base (concrete table:
bases 2 vs overall 3). -/
theorem c9_null_demo_excluded (cfg : Config) (t : Table) :
    (∀ col cat, cat ≠ Cell.null → base_sizes_cat cfg t col cat =
        base_sizes_cat cfg
          { header := t.header
            rows := t.rows.filter
              (fun r => decide (getCell t.header r col ≠ Cell.null)) } col cat)
    ∧ (∀ q col cat, cat ≠ Cell.null → demo_bases cfg t q col cat =
        nunique ((((long_data cfg t).filter
          (fun r => decide (demoVal cfg r col ≠ Cell.null))).filter
            (fun r => decide (r.question = q ∧ demoVal cfg r col = cat))).map
              (fun r => r.id)))
    ∧ (∀ q a col cat, cat ≠ Cell.null → demoCount cfg t q a col cat =
        (((long_data cfg t).filter
          (fun r => decide (demoVal cfg r col ≠ Cell.null))).filter
            (fun r => decide (r.question = q ∧ r.answer = a ∧
              demoVal cfg r col = cat))).length)
    ∧ base_sizes_overall cfg_c9 tbl_c9 = 3
    ∧ ((rawCats tbl_c9 "Region").map
        (fun cat => base_sizes_cat cfg_c9 tbl_c9 "Region" cat)).sum = 2 := by
  refine ⟨?_, ?_, ?_, by decide, by decide⟩
  · intro col cat hcat
    unfold base_sizes_cat
    rw [List.filter_filter]
    congr 1
    refine congrArg _ (List.filter_congr (fun r _ => ?_))
    by_cases h : getCell t.header r col = cat <;> simp [h, hcat]
  · intro q col cat hcat
    unfold demo_bases
    rw [List.filter_filter]
    congr 2
    refine List.filter_congr (fun r _ => ?_)
    by_cases h : demoVal cfg r col = cat <;> simp [h, hcat]
  · intro q a col cat hcat
    unfold demoCount
    rw [List.filter_filter]
    congr 1
    refine List.filter_congr (fun r _ => ?_)
    by_cases h : demoVal cfg r col = cat <;> simp [h, hcat]

/-- Witness for C9: dropping the null-Region respondent changes no North
count, and the category bases (2) fall short of the overall base (3). -/
theorem c9_witness :
    base_sizes_cat cfg_c9 tbl_c9 "Region" (Cell.str "North") =
      base_sizes_cat cfg_c9
        { header := tbl_c9.header
          rows := tbl_c9.rows.filter
            (fun r => decide (getCell tbl_c9.header r "Region" ≠ Cell.null)) } "Region"
        (Cell.str "North")
    ∧ base_sizes_cat cfg_c9 tbl_c9 "Region" (Cell.str "North") = 2 :=
  ⟨(c9_null_demo_excluded cfg_c9 tbl_c9).1 "Region" (Cell.str "North") (by decide),
   by decide⟩

/-- The dictionary lookup misses exactly on strings outside the seven
recognized phrases. -/
theorem scale_mapping_eq_none (s : String) :
    scale_mapping s = none ↔ s ∉ scale_keys := by
  unfold scale_mapping scale_keys
  split_ifs with h1 h2 h3 h4 h5 h6 h7 <;> simp_all

/-- C10: the driver engine stringifies and trims every target/driver cell
before the ordinal-dictionary lookup, so any cell whose trimmed rendering is
not one of the seven recognized phrases — in particular a numeric cell such
as the integer 5 — maps to missing, and a row containing any missing value
is deleted list-wise from the regression data. -/
theorem c10_scale_lookup (t : Table) (target : String) (drivers : List String) :
    (∀ c : Cell, mapCell c = scale_mapping (pyTrim (pyStr c)))
    ∧ (∀ c : Cell, mapCell c = none ↔ pyTrim (pyStr c) ∉ scale_keys)
    ∧ mapCell (Cell.int 5) = none
    ∧ (∀ v ∈ clean_reg_data t target drivers, ∀ o ∈ v, o.isSome = true)
    ∧ (∀ row ∈ t.rows,
        (∃ col ∈ target :: drivers, mapCell (getCell t.header row col) = none) →
        ((target :: drivers).map (fun col => mapCell (getCell t.header row col))) ∉
          clean_reg_data t target drivers) := by
  refine ⟨fun _ => rfl, fun c => scale_mapping_eq_none _, by decide, ?_, ?_⟩
  · intro v hv o ho
    unfold clean_reg_data at hv
    have hp : v.all Option.isSome = true := (List.mem_filter.mp hv).2
    exact List.all_eq_true.mp hp o ho
  · intro row hrow hex hmem
    rcases hex with ⟨col, hcol, hnone⟩
    unfold clean_reg_data at hmem
    have hp : ((target :: drivers).map
        (fun col => mapCell (getCell t.header row col))).all Option.isSome = true :=
      (List.mem_filter.mp hmem).2
    have hall := List.all_eq_true.mp hp
    have hin : mapCell (getCell t.header row col) ∈
        (target :: drivers).map (fun col => mapCell (getCell t.header row col)) :=
      List.mem_map_of_mem _ hcol
    have := hall _ hin
    rw [hnone] at this
    simp at this

/-- Witness for C10: the row whose target cell is the integer 5 is deleted
list-wise; only the fully-phrased row survives. -/
theorem c10_witness :
    (["T", "D"].map (fun col => mapCell (getCell tbl_c10.header
        [Cell.int 5, Cell.str "Agree"] col))) ∉ clean_reg_data tbl_c10 "T" ["D"]
    ∧ (clean_reg_data tbl_c10 "T" ["D"]).length = 1 :=
  ⟨(c10_scale_lookup tbl_c10 "T" ["D"]).2.2.2.2 [Cell.int 5, Cell.str "Agree"]
      (by decide) ⟨"T", by decide, by decide⟩,
   by decide⟩

/-- Witness for C5: on a concrete two-question table the report has
1 + (2 + 1) rows, 1 + 2 value columns, and the row key (Q1, Yes) is realised
by a long record. -/
theorem c5_witness :
    (∃ r ∈ long_data cfg_c5 tbl_c5, r.question = "Q1" ∧ r.answer = "Yes")
    ∧ (final_report cfg_c5 tbl_c5).length = 4
    ∧ (report_columns cfg_c5 tbl_c5).length = 3 :=
  ⟨(c5_report_shape cfg_c5 tbl_c5).2.2 ("Q1", "Yes") (by decide),
   by decide, by decide⟩
